import Mathlib

/-!
Shallow embedding of the `httpsig` package (file `httpsig.go`) of the
OffBlocks/go-httpsig repository.

The file `httpsig.go` contains the public orchestration layer: the covered
component list construction in `NewSigner`, the body buffering, digest setting
and header write-back in `Signer.Sign`, the digest check in `Verifier.Verify`,
the signing round tripper `NewSignTransport`, and the verifying middleware
`NewVerifyMiddleware`.

Functions that `httpsig.go` calls but that live in other files of the
repository (`calcDigest`, `verifyDigest`, `messageFromRequest`, the inner
`signer.Sign` and `verifier.Verify`) are treated as opaque collaborators: the
embedding takes them as explicit function parameters and the theorems
quantify over them, so every statement holds for the real implementations
whatever they compute.

Bytes are modelled as `List Nat`; header maps as association lists from
canonical header names to value lists, matching the `map[string][]string`
representation of `http.Header` (the Go map holds at most one entry per
canonical key, and every request built here keeps keys unique).
-/

set_option autoImplicit false

namespace Httpsig

/-- A request body, mirroring the states an `io.ReadCloser` passes through in
`Signer.Sign` / `Verifier.Verify`: `nil` (no body), an original stream
(carrying its bytes, whether `Close` has been called, and whether reading
from it fails), or the re-readable `io.NopCloser(bytes.NewReader(...))`
replacement installed after buffering. -/
inductive Body where
  | nil : Body
  | orig (bytes : List Nat) (closed : Bool) (failing : Bool) : Body
  | buffered (bytes : List Nat) : Body
  deriving DecidableEq, Repr

/-- The parts of `*http.Request` that `httpsig.go` reads or writes. -/
structure Request where
  method : String
  path : String
  query : String
  headers : List (String × List String)
  body : Body
  deriving DecidableEq, Repr

/-- `http.Header.Get`: first value stored under the key, `""` if absent. -/
def getHeader (hs : List (String × List String)) (k : String) : String :=
  match hs with
  | [] => ""
  | (k0, v0) :: rest =>
    if k0 == k then
      match v0 with
      | [] => ""
      | v :: _ => v
    else getHeader rest k

/-- `http.Header.Set` / map assignment `r.Header[k] = v`: replace the entry
for `k`, or add one if the key is absent. -/
def setHeader (hs : List (String × List String)) (k : String) (v : List String) :
    List (String × List String) :=
  match hs with
  | [] => [(k, v)]
  | (k0, v0) :: rest =>
    if k0 == k then (k, v) :: rest else (k0, v0) :: setHeader rest k v

/-- `defaultHeaders` from `httpsig.go` line 18. -/
def defaultHeaders : List String := ["content-type", "content-length"]

/-- `sliceHas` from `httpsig.go` lines 20-28. -/
def sliceHas (haystack : List String) (needle : String) : Bool :=
  match haystack with
  | [] => false
  | n :: rest => if n == needle then true else sliceHas rest needle

/-- The specialty component loop order of `NewSigner`, `httpsig.go` line 65. -/
def specialtyComps : List String := ["content-digest", "@query", "@path", "@method"]

/-- The body of the specialty component loop in `NewSigner` (`httpsig.go`
lines 65-69): prepend `comp` unless it is already present. -/
def prependAbsent (acc : List String) (comp : String) : List String :=
  if sliceHas acc comp then acc else comp :: acc

/-- The covered component list computed by `NewSigner` (`httpsig.go` lines
51-72): default the header list when empty, then for each specialty component
in loop order, prepend it unless already present. -/
def newSignerHeaders (hdrs : List String) : List String :=
  let s := if hdrs.length == 0 then defaultHeaders else hdrs
  specialtyComps.foldl prependAbsent s

/-- The body buffering prologue shared by `Signer.Sign` (lines 75-86) and
`Verifier.Verify` (lines 137-148): read the whole body into a buffer; on a
read error return the error with the body untouched; otherwise close the
original stream and, only when at least one byte was read, replace the body
with a fresh re-readable reader over the buffered bytes. Returns the
resulting body, the buffered bytes, and the read error if any. -/
def bufferBody (b : Body) : Body × List Nat × Option String :=
  match b with
  | Body.nil => (Body.nil, [], none)
  | Body.orig bytes closed failing =>
    if failing then (Body.orig bytes closed failing, [], some "body read error")
    else if bytes.isEmpty then (Body.orig bytes true failing, [], none)
    else (Body.buffered bytes, bytes, none)
  | Body.buffered bytes =>
    if bytes.isEmpty then (Body.buffered bytes, [], none)
    else (Body.buffered bytes, bytes, none)

/-- `true` when reading the body does not fail. -/
def readOk (b : Body) : Bool :=
  ((bufferBody b).2.2).isNone

/-- `Signer.Sign` (`httpsig.go` lines 74-103). `calcDigest` stands for the
digest function defined in another file of the repository; `innerSign` stands
for the inner `signer.Sign`, which on success yields the values of the
`Signature-Input` and `Signature` headers it wants written back. Returns the
request as left by the call (the Go method mutates it in place) and the error
if any. -/
def signStep (calcDigest : List Nat → String)
    (innerSign : Request → Except String (String × String))
    (r : Request) : Request × Option String :=
  match bufferBody r.body with
  | (b1, bs, readErr) =>
    match readErr with
    | some e => ({ r with body := b1 }, some e)
    | none =>
      let r1 : Request :=
        { r with
          body := b1,
          headers := setHeader r.headers "Content-Digest" [calcDigest bs] }
      match innerSign r1 with
      | Except.error e => (r1, some e)
      | Except.ok (si, sg) =>
        ({ r1 with
           headers := setHeader (setHeader r1.headers "Signature-Input" [si])
             "Signature" [sg] }, none)

/-- `Verifier.Verify` (`httpsig.go` lines 130-158). `verifyDigest` stands for
the digest check defined in another file; `innerVerify` stands for the inner
`verifier.Verify`, which returns a key id together with an optional error.
Returns the request as left by the call, the returned key id, and the error
if any. -/
def verifyStep (verifyDigest : List Nat → String → Bool)
    (innerVerify : Request → String × Option String)
    (r : Request) : Request × String × Option String :=
  match innerVerify r with
  | (keyID, some e) => (r, keyID, some e)
  | (keyID, none) =>
    match bufferBody r.body with
    | (b1, bs, readErr) =>
      match readErr with
      | some e => ({ r with body := b1 }, keyID, some e)
      | none =>
        let r1 : Request := { r with body := b1 }
        let dig := getHeader r1.headers "Content-Digest"
        if dig ≠ "" ∧ verifyDigest bs dig = false then
          (r1, keyID, some "digest mismatch")
        else
          (r1, keyID, none)

/-- Outcome of the round tripper built by `NewSignTransport`: either the send
was aborted with an error before the wrapped transport ran (the Go code then
returns a nil response), or the wrapped transport was invoked on the signed
request and produced a response. -/
inductive RtOutcome (ρ : Type) where
  | aborted (err : String) : RtOutcome ρ
  | forwarded (sent : Request) (resp : ρ) : RtOutcome ρ
  deriving DecidableEq, Repr

/-- `NewSignTransport` (`httpsig.go` lines 167-176): sign the request; on a
signing error return it without invoking the wrapped transport; on success
invoke the wrapped transport on the signed request. -/
def newSignTransport {ρ : Type} (calcDigest : List Nat → String)
    (innerSign : Request → Except String (String × String))
    (transport : Request → ρ) (r : Request) : RtOutcome ρ :=
  match signStep calcDigest innerSign r with
  | (_, some e) => RtOutcome.aborted e
  | (r1, none) => RtOutcome.forwarded r1 (transport r1)

/-- The error response written by `serveErr` in `NewVerifyMiddleware`
(`httpsig.go` lines 195-201). -/
structure MwResponse where
  status : Nat
  contentType : String
  respBody : String
  deriving DecidableEq, Repr

/-- Outcome of the handler built by `NewVerifyMiddleware`: either the request
was rejected with a response (the wrapped handler is not invoked), or the
wrapped handler was invoked on the request as left by `Verifier.Verify`. -/
inductive MwResult where
  | rejected (resp : MwResponse) : MwResult
  | handled (r : Request) : MwResult
  deriving DecidableEq, Repr

/-- `NewVerifyMiddleware` (`httpsig.go` lines 191-212): run `Verifier.Verify`;
on any error write status 400 with `Content-Type: text/plain` and body
`invalid required signature` and return without invoking the handler; on
success invoke the wrapped handler. -/
def newVerifyMiddleware (verifyDigest : List Nat → String → Bool)
    (innerVerify : Request → String × Option String)
    (r : Request) : MwResult :=
  match verifyStep verifyDigest innerVerify r with
  | (_, _, some _) => MwResult.rejected ⟨400, "text/plain", "invalid required signature"⟩
  | (r1, _, none) => MwResult.handled r1

/-- Number of occurrences of a string in a list, used to state the
de-duplication claims about `NewSigner`. -/
def countOcc (l : List String) (c : String) : Nat :=
  match l with
  | [] => 0
  | x :: rest => (if x == c then 1 else 0) + countOcc rest c

/-! ## Concrete fixtures

Concrete instances of the opaque collaborator functions and concrete
requests, used by the closed counterexample and witness theorems. -/

/-- A concrete digest function instance. -/
def cdProbe : List Nat → String := fun _ => "d"

/-- An inner signer that always succeeds with fixed header values. -/
def okSign : Request → Except String (String × String) :=
  fun _ => Except.ok ("sig-input-value", "sig-value")

/-- An inner signer whose key signing operation always fails. -/
def failingSign : Request → Except String (String × String) :=
  fun _ => Except.error "signing failure"

/-- An inner verifier that always succeeds with key id `test-key`. -/
def okVerify : Request → String × Option String := fun _ => ("test-key", none)

/-- An inner verifier that always fails (no signature found). -/
def failVerify : Request → String × Option String :=
  fun _ => ("", some "missing signature")

/-- A digest check that never matches. -/
def vdFalse : List Nat → String → Bool := fun _ _ => false

/-- A digest check that always matches. -/
def vdTrue : List Nat → String → Bool := fun _ _ => true

/-- A request with one header, no Content-Digest, and no body. -/
def reqPlain : Request :=
  ⟨"GET", "/foo", "?bar=1", [("Content-Type", ["application/json"])], Body.nil⟩

/-- A request already carrying a Content-Digest header and no body. -/
def reqWithDigest : Request :=
  ⟨"GET", "/foo", "?bar=1", [("Content-Digest", ["sha-512=:AAA:"])], Body.nil⟩

/-- A request with a one-byte body stream. -/
def reqBody1 : Request :=
  ⟨"POST", "/foo", "", [("Content-Type", ["application/json"])], Body.orig [1] false false⟩

/-- A request with a zero-byte body stream. -/
def reqBody0 : Request :=
  ⟨"POST", "/foo", "", [("Content-Type", ["application/json"])], Body.orig [] false false⟩

/-! ## Helper lemmas -/

theorem getHeader_setHeader_same (hs : List (String × List String)) (k v : String)
    (vs : List String) : getHeader (setHeader hs k (v :: vs)) k = v := by
  induction hs with
  | nil => simp [setHeader, getHeader]
  | cons p rest ih =>
    obtain ⟨k0, v0⟩ := p
    cases h : k0 == k
    · simp [setHeader, getHeader, h, ih]
    · simp [setHeader, getHeader, h]

theorem getHeader_setHeader_ne (hs : List (String × List String)) (k k0 : String)
    (v : List String) (h : k ≠ k0) :
    getHeader (setHeader hs k v) k0 = getHeader hs k0 := by
  have hk : (k == k0) = false := beq_eq_false_iff_ne.mpr h
  induction hs with
  | nil => simp [setHeader, getHeader, hk]
  | cons p rest ih =>
    obtain ⟨k1, v1⟩ := p
    cases h1 : k1 == k
    · simp [setHeader, getHeader, h1, ih]
    · have hk1 : k1 = k := eq_of_beq h1
      have hk10 : (k1 == k0) = false := by
        rw [hk1]
        exact hk
      simp [setHeader, getHeader, h1, hk, hk10]

/-- In every branch of `Signer.Sign`, the request body ends up as the result
of the buffering prologue (`bufferBody` leaves the body untouched exactly
when the read fails). -/
theorem signStep_body (cd : List Nat → String)
    (inner : Request → Except String (String × String)) (r : Request) :
    (signStep cd inner r).1.body = (bufferBody r.body).1 := by
  rcases hb : bufferBody r.body with ⟨b1, bs, re⟩
  cases re with
  | some e => simp [signStep, hb]
  | none =>
    simp only [signStep, hb]
    cases inner
        { r with
          body := b1,
          headers := setHeader r.headers "Content-Digest" [cd bs] } with
    | error e => simp
    | ok p => cases p with | mk si sg => simp

/-- When the inner verification succeeds, the request body after
`Verifier.Verify` is the result of the buffering prologue. -/
theorem verifyStep_body (vd : List Nat → String → Bool)
    (iv : Request → String × Option String) (r : Request)
    (hiv : (iv r).2 = none) :
    (verifyStep vd iv r).1.body = (bufferBody r.body).1 := by
  rcases hv : iv r with ⟨k, oe⟩
  rw [hv] at hiv
  simp only at hiv
  subst hiv
  rcases hb : bufferBody r.body with ⟨b1, bs, re⟩
  cases re with
  | some e => simp [verifyStep, hv, hb]
  | none =>
    simp only [verifyStep, hv, hb]
    by_cases hd :
        getHeader ({ r with body := b1 } : Request).headers "Content-Digest" ≠ "" ∧
          vd bs (getHeader ({ r with body := b1 } : Request).headers "Content-Digest") = false
    · simp [hd]
    · simp [hd]

theorem sliceHas_cons (x : String) (l : List String) (c : String) :
    sliceHas (x :: l) c = ((x == c) || sliceHas l c) := by
  cases h : x == c <;> simp [sliceHas, h]

theorem countOcc_nil (c : String) : countOcc [] c = 0 := rfl

theorem countOcc_cons (x : String) (l : List String) (c : String) :
    countOcc (x :: l) c = (if x == c then 1 else 0) + countOcc l c := rfl

theorem sliceHas_false_countOcc (l : List String) (c : String)
    (h : sliceHas l c = false) : countOcc l c = 0 := by
  induction l with
  | nil => rfl
  | cons x rest ih =>
    rw [sliceHas_cons] at h
    rcases Bool.or_eq_false_iff.mp h with ⟨hx, hr⟩
    simp [countOcc_cons, hx, ih hr]

theorem sliceHas_true_countOcc (l : List String) (c : String)
    (h : sliceHas l c = true) : 1 ≤ countOcc l c := by
  induction l with
  | nil => simp [sliceHas] at h
  | cons x rest ih =>
    rw [sliceHas_cons] at h
    rw [countOcc_cons]
    cases hx : x == c with
    | true => simp
    | false =>
      rw [hx] at h
      simp only [Bool.false_or] at h
      have := ih h
      omega

theorem countOcc_prependAbsent_self (acc : List String) (c : String)
    (h : countOcc acc c ≤ 1) : countOcc (prependAbsent acc c) c = 1 := by
  unfold prependAbsent
  cases hs : sliceHas acc c
  · simp only [Bool.false_eq_true, if_false, countOcc_cons, beq_self_eq_true, if_true,
      sliceHas_false_countOcc acc c hs]
  · simp only [if_true]
    have := sliceHas_true_countOcc acc c hs
    omega

theorem countOcc_prependAbsent_ne (acc : List String) (c d : String)
    (h : (c == d) = false) : countOcc (prependAbsent acc c) d = countOcc acc d := by
  unfold prependAbsent
  cases sliceHas acc c
  · simp only [Bool.false_eq_true, if_false, countOcc_cons, h, Nat.zero_add]
  · simp only [if_true]

theorem mem_of_sliceHas (l : List String) (c : String)
    (h : sliceHas l c = true) : c ∈ l := by
  induction l with
  | nil => simp [sliceHas] at h
  | cons x rest ih =>
    rw [sliceHas_cons] at h
    cases hx : x == c with
    | true => exact (eq_of_beq hx) ▸ List.mem_cons_self x rest
    | false =>
      rw [hx] at h
      simp only [Bool.false_or] at h
      exact List.mem_cons_of_mem x (ih h)

theorem foldl_prependAbsent_fresh (s : List String)
    (h1 : sliceHas s "content-digest" = false)
    (h2 : sliceHas s "@query" = false)
    (h3 : sliceHas s "@path" = false)
    (h4 : sliceHas s "@method" = false) :
    specialtyComps.foldl prependAbsent s =
      "@method" :: "@path" :: "@query" :: "content-digest" :: s := by
  have e1 : prependAbsent s "content-digest" = "content-digest" :: s := by
    rw [prependAbsent, h1]
    simp
  have e2 : prependAbsent ("content-digest" :: s) "@query" =
      "@query" :: "content-digest" :: s := by
    rw [prependAbsent, sliceHas_cons, h2]
    simp
  have e3 : prependAbsent ("@query" :: "content-digest" :: s) "@path" =
      "@path" :: "@query" :: "content-digest" :: s := by
    rw [prependAbsent, sliceHas_cons, sliceHas_cons, h3]
    simp
  have e4 : prependAbsent ("@path" :: "@query" :: "content-digest" :: s) "@method" =
      "@method" :: "@path" :: "@query" :: "content-digest" :: s := by
    rw [prependAbsent, sliceHas_cons, sliceHas_cons, sliceHas_cons, h4]
    simp
  simp only [specialtyComps, List.foldl]
  rw [e1, e2, e3, e4]

theorem newSignerHeaders_cons (a : String) (t : List String) :
    newSignerHeaders (a :: t) = specialtyComps.foldl prependAbsent (a :: t) := by
  simp [newSignerHeaders]

/-- `Signer.Sign` on an inner signing failure: the digest header has been
set and the body buffered, the error is returned, and nothing else ran. -/
theorem signStep_err (cd : List Nat → String)
    (inner : Request → Except String (String × String)) (r : Request)
    (e0 : String) (b1 : Body) (bs : List Nat)
    (hb : bufferBody r.body = (b1, bs, none))
    (hin : inner
      { r with
        body := b1,
        headers := setHeader r.headers "Content-Digest" [cd bs] } = Except.error e0) :
    signStep cd inner r =
      ({ r with
         body := b1,
         headers := setHeader r.headers "Content-Digest" [cd bs] }, some e0) := by
  simp only [signStep, hb, hin]

/-- `Signer.Sign` on success: digest set, signature headers written back. -/
theorem signStep_ok (cd : List Nat → String)
    (inner : Request → Except String (String × String)) (r : Request)
    (si sg : String) (b1 : Body) (bs : List Nat)
    (hb : bufferBody r.body = (b1, bs, none))
    (hin : inner
      { r with
        body := b1,
        headers := setHeader r.headers "Content-Digest" [cd bs] } = Except.ok (si, sg)) :
    signStep cd inner r =
      ({ r with
         body := b1,
         headers := setHeader (setHeader (setHeader r.headers "Content-Digest" [cd bs])
           "Signature-Input" [si]) "Signature" [sg] }, none) := by
  simp only [signStep, hb, hin]

/-- `Verifier.Verify` when the inner verification fails: returned as is. -/
theorem verifyStep_inner_err (vd : List Nat → String → Bool)
    (iv : Request → String × Option String) (r : Request) (k e : String)
    (hiv : iv r = (k, some e)) : verifyStep vd iv r = (r, k, some e) := by
  simp only [verifyStep, hiv]

/-- `Verifier.Verify` after a successful inner verification and body read:
the digest check runs only against a present, non-empty Content-Digest
header. -/
theorem verifyStep_ok (vd : List Nat → String → Bool)
    (iv : Request → String × Option String) (r : Request) (k : String)
    (b1 : Body) (bs : List Nat)
    (hiv : iv r = (k, none)) (hb : bufferBody r.body = (b1, bs, none)) :
    verifyStep vd iv r =
      if getHeader r.headers "Content-Digest" ≠ "" ∧
          vd bs (getHeader r.headers "Content-Digest") = false then
        ({ r with body := b1 }, k, some "digest mismatch")
      else ({ r with body := b1 }, k, none) := by
  simp only [verifyStep, hiv, hb]

/-! ## Claim C2 -/

/-- Claim C2, counterexample: with the default header list, the covered
component list of `NewSigner` does not begin with
`content-digest, @query, @path, @method` in that order (it begins with
`@method, @path, @query, content-digest`). -/
theorem newSigner_head_order_counterexample :
    (newSignerHeaders []).take 4 = ["@method", "@path", "@query", "content-digest"] ∧
      (newSignerHeaders []).take 4 ≠ ["content-digest", "@query", "@path", "@method"] := by
  constructor
  · rfl
  · decide

/-- Claim C2, amended: for every caller-supplied header list containing none
of the four specialty identifiers, the ordered covered component list used by
the signer begins with `@method, @path, @query, content-digest` in exactly
that order, followed by the caller-specified headers (the defaults
`content-type, content-length` when the caller list is empty). -/
theorem newSigner_head_order (hdrs : List String)
    (h1 : sliceHas hdrs "content-digest" = false)
    (h2 : sliceHas hdrs "@query" = false)
    (h3 : sliceHas hdrs "@path" = false)
    (h4 : sliceHas hdrs "@method" = false) :
    newSignerHeaders hdrs =
      "@method" :: "@path" :: "@query" :: "content-digest" ::
        (if hdrs.length == 0 then defaultHeaders else hdrs) := by
  cases hdrs with
  | nil => decide
  | cons a t =>
    rw [newSignerHeaders_cons, foldl_prependAbsent_fresh (a :: t) h1 h2 h3 h4]
    simp

/-- Claim C2, witness for the amended theorem at the caller list
`["content-type"]`. -/
theorem newSigner_head_order_witness :
    newSignerHeaders ["content-type"] =
      ["@method", "@path", "@query", "content-digest", "content-type"] := by
  have h := newSigner_head_order ["content-type"] (by decide) (by decide) (by decide)
    (by decide)
  simpa using h

/-! ## Claim C6 -/

/-- Claim C6, counterexample: when the caller-supplied list itself contains
`@method` twice, the final covered component list contains `@method` twice as
well — the prepend step never de-duplicates the caller list. -/
theorem newSigner_dedup_counterexample :
    countOcc (newSignerHeaders ["@method", "@method"]) "@method" = 2 := by
  decide

/-- Claim C6, amended: for every caller-supplied header list that contains
each of the identifiers `content-digest`, `@query`, `@path`, `@method` at
most once, each of the four occurs exactly once in the final covered
component list: the prepend step adds an identifier only when absent, and
never duplicates one already present. -/
theorem newSigner_dedup (hdrs : List String)
    (h1 : countOcc hdrs "content-digest" ≤ 1)
    (h2 : countOcc hdrs "@query" ≤ 1)
    (h3 : countOcc hdrs "@path" ≤ 1)
    (h4 : countOcc hdrs "@method" ≤ 1) :
    countOcc (newSignerHeaders hdrs) "content-digest" = 1 ∧
      countOcc (newSignerHeaders hdrs) "@query" = 1 ∧
      countOcc (newSignerHeaders hdrs) "@path" = 1 ∧
      countOcc (newSignerHeaders hdrs) "@method" = 1 := by
  have base :
      countOcc (if hdrs.length == 0 then defaultHeaders else hdrs) "content-digest" ≤ 1 ∧
        countOcc (if hdrs.length == 0 then defaultHeaders else hdrs) "@query" ≤ 1 ∧
        countOcc (if hdrs.length == 0 then defaultHeaders else hdrs) "@path" ≤ 1 ∧
        countOcc (if hdrs.length == 0 then defaultHeaders else hdrs) "@method" ≤ 1 := by
    cases hdrs with
    | nil => refine ⟨by decide, by decide, by decide, by decide⟩
    | cons a t => simpa using ⟨h1, h2, h3, h4⟩
  obtain ⟨b1, b2, b3, b4⟩ := base
  unfold newSignerHeaders
  simp only [specialtyComps, List.foldl]
  refine ⟨?_, ?_, ?_, ?_⟩
  · rw [countOcc_prependAbsent_ne _ _ _ (by decide),
      countOcc_prependAbsent_ne _ _ _ (by decide),
      countOcc_prependAbsent_ne _ _ _ (by decide)]
    exact countOcc_prependAbsent_self _ _ b1
  · rw [countOcc_prependAbsent_ne _ _ _ (by decide),
      countOcc_prependAbsent_ne _ _ _ (by decide)]
    rw [countOcc_prependAbsent_self _ _ ?_]
    rw [countOcc_prependAbsent_ne _ _ _ (by decide)]
    exact b2
  · rw [countOcc_prependAbsent_ne _ _ _ (by decide)]
    rw [countOcc_prependAbsent_self _ _ ?_]
    rw [countOcc_prependAbsent_ne _ _ _ (by decide),
      countOcc_prependAbsent_ne _ _ _ (by decide)]
    exact b3
  · rw [countOcc_prependAbsent_self _ _ ?_]
    rw [countOcc_prependAbsent_ne _ _ _ (by decide),
      countOcc_prependAbsent_ne _ _ _ (by decide),
      countOcc_prependAbsent_ne _ _ _ (by decide)]
    exact b4

/-- Claim C6, witness for the amended theorem at the caller list
`["@method", "content-type"]`, where one of the four identifiers is already
present. -/
theorem newSigner_dedup_witness :
    countOcc (newSignerHeaders ["@method", "content-type"]) "content-digest" = 1 ∧
      countOcc (newSignerHeaders ["@method", "content-type"]) "@query" = 1 ∧
      countOcc (newSignerHeaders ["@method", "content-type"]) "@path" = 1 ∧
      countOcc (newSignerHeaders ["@method", "content-type"]) "@method" = 1 :=
  newSigner_dedup ["@method", "content-type"] (by decide) (by decide) (by decide)
    (by decide)

/-! ## Claim C7 -/

/-- Claim C7: with no headers configured, the caller-specified portion of the
covered component list (what follows the four always-prepended specialty
identifiers) is exactly `content-type` followed by `content-length`. -/
theorem newSigner_default_headers :
    (newSignerHeaders []).drop 4 = ["content-type", "content-length"] ∧
      (newSignerHeaders []).length = 6 := by
  decide

/-! ## Claim C1 -/

/-- Claim C1, counterexample: on a request without a Content-Digest header,
a failing key signing operation makes `Signer.Sign` return the error, yet the
headers are not left as they were — a Content-Digest header has been added,
because the digest is set before the signing attempt. -/
theorem sign_fail_mutates_content_digest :
    (signStep cdProbe failingSign reqPlain).2 = some "signing failure" ∧
      (signStep cdProbe failingSign reqPlain).1.headers ≠ reqPlain.headers ∧
      getHeader (signStep cdProbe failingSign reqPlain).1.headers "Content-Digest" = "d" ∧
      getHeader reqPlain.headers "Content-Digest" = "" := by
  decide

/-- Claim C1, amended: when a key signing operation fails (the body read
having succeeded), `Signer.Sign` surfaces the error, and the Signature-Input
and Signature headers are left exactly as they were — no partial signature
material is emitted — but the Content-Digest header has already been set to
the digest of the buffered body. -/
theorem sign_fail_signature_headers_unchanged (cd : List Nat → String)
    (inner : Request → Except String (String × String)) (r : Request) (e : String)
    (hro : readOk r.body = true)
    (herr : (signStep cd inner r).2 = some e) :
    getHeader (signStep cd inner r).1.headers "Signature-Input" =
        getHeader r.headers "Signature-Input" ∧
      getHeader (signStep cd inner r).1.headers "Signature" =
        getHeader r.headers "Signature" ∧
      getHeader (signStep cd inner r).1.headers "Content-Digest" =
        cd (bufferBody r.body).2.1 := by
  rcases hb : bufferBody r.body with ⟨b1, bs, re⟩
  cases re with
  | some e0 =>
    rw [readOk, hb] at hro
    simp at hro
  | none =>
    cases hin : inner
        { r with
          body := b1,
          headers := setHeader r.headers "Content-Digest" [cd bs] } with
    | ok p =>
      obtain ⟨si, sg⟩ := p
      rw [signStep_ok cd inner r si sg b1 bs hb hin] at herr
      simp at herr
    | error e0 =>
      rw [signStep_err cd inner r e0 b1 bs hb hin]
      refine ⟨?_, ?_, ?_⟩
      · exact getHeader_setHeader_ne r.headers "Content-Digest" "Signature-Input"
          [cd bs] (by decide)
      · exact getHeader_setHeader_ne r.headers "Content-Digest" "Signature"
          [cd bs] (by decide)
      · exact getHeader_setHeader_same r.headers "Content-Digest" (cd bs) []

/-- Claim C1, witness for the amended theorem: a concrete request, a digest
function and a failing inner signer. -/
theorem sign_fail_signature_headers_unchanged_witness :
    getHeader (signStep cdProbe failingSign reqPlain).1.headers "Signature-Input" =
        getHeader reqPlain.headers "Signature-Input" ∧
      getHeader (signStep cdProbe failingSign reqPlain).1.headers "Signature" =
        getHeader reqPlain.headers "Signature" ∧
      getHeader (signStep cdProbe failingSign reqPlain).1.headers "Content-Digest" =
        cdProbe (bufferBody reqPlain.body).2.1 :=
  sign_fail_signature_headers_unchanged cdProbe failingSign reqPlain "signing failure"
    (by decide) (by decide)

/-! ## Claim C5 -/

/-- Claim C5: a successful `Signer.Sign` always sets the Content-Digest
header to the digest of the buffered body bytes; with a nil or zero-byte
body the value is the digest of zero bytes. -/
theorem sign_sets_content_digest (cd : List Nat → String)
    (inner : Request → Except String (String × String)) (r : Request)
    (h : (signStep cd inner r).2 = none) :
    getHeader (signStep cd inner r).1.headers "Content-Digest" =
        cd (bufferBody r.body).2.1 ∧
      (r.body = Body.nil →
        getHeader (signStep cd inner r).1.headers "Content-Digest" = cd []) ∧
      (∀ c f, r.body = Body.orig [] c f →
        getHeader (signStep cd inner r).1.headers "Content-Digest" = cd []) := by
  have main : getHeader (signStep cd inner r).1.headers "Content-Digest" =
      cd (bufferBody r.body).2.1 := by
    rcases hb : bufferBody r.body with ⟨b1, bs, re⟩
    cases re with
    | some e0 =>
      simp only [signStep, hb] at h
      simp at h
    | none =>
      cases hin : inner
          { r with
            body := b1,
            headers := setHeader r.headers "Content-Digest" [cd bs] } with
      | error e0 =>
        rw [signStep_err cd inner r e0 b1 bs hb hin] at h
        simp at h
      | ok p =>
        obtain ⟨si, sg⟩ := p
        rw [signStep_ok cd inner r si sg b1 bs hb hin]
        rw [getHeader_setHeader_ne _ "Signature" "Content-Digest" _ (by decide),
          getHeader_setHeader_ne _ "Signature-Input" "Content-Digest" _ (by decide)]
        exact getHeader_setHeader_same r.headers "Content-Digest" (cd bs) []
  refine ⟨main, ?_, ?_⟩
  · intro hnil
    rw [main, hnil]
    rfl
  · intro c f hor
    rw [main, hor]
    cases c <;> cases f <;> rfl


/-- Claim C5, witness: a concrete empty-body request signed successfully
carries Content-Digest equal to the digest of zero bytes. -/
theorem sign_sets_content_digest_witness :
    getHeader (signStep cdProbe okSign reqPlain).1.headers "Content-Digest" =
      cdProbe [] :=
  (sign_sets_content_digest cdProbe okSign reqPlain (by decide)).2.1 rfl

/-! ## Claim C8 -/

/-- Claim C8: the round tripper built by `NewSignTransport` forwards to the
wrapped transport exactly when `Signer.Sign` succeeds; on a signing error it
returns that error without invoking the wrapped transport (and with no
response). -/
theorem sign_transport_gates (ρ : Type) (cd : List Nat → String)
    (inner : Request → Except String (String × String))
    (transport : Request → ρ) (r : Request) :
    (∀ e, (signStep cd inner r).2 = some e →
      newSignTransport cd inner transport r = RtOutcome.aborted e) ∧
    ((signStep cd inner r).2 = none →
      newSignTransport cd inner transport r =
        RtOutcome.forwarded (signStep cd inner r).1
          (transport (signStep cd inner r).1)) := by
  rcases h : signStep cd inner r with ⟨r1, oe⟩
  cases oe with
  | some e0 =>
    constructor
    · intro e he
      simp only [Option.some.injEq] at he
      subst he
      simp [newSignTransport, h]
    · intro hn
      simp at hn
  | none =>
    constructor
    · intro e he
      simp at he
    · intro _
      simp [newSignTransport, h]

/-- Claim C8, witness: with a failing inner signer the transport is not
invoked and the error surfaces; with a succeeding one the signed request is
forwarded. -/
theorem sign_transport_gates_witness :
    newSignTransport cdProbe failingSign (fun _ => (0 : Nat)) reqPlain =
        RtOutcome.aborted "signing failure" ∧
      newSignTransport cdProbe okSign (fun _ => (0 : Nat)) reqPlain =
        RtOutcome.forwarded (signStep cdProbe okSign reqPlain).1 (0 : Nat) :=
  ⟨(sign_transport_gates Nat cdProbe failingSign (fun _ => 0) reqPlain).1
      "signing failure" (by decide),
    (sign_transport_gates Nat cdProbe okSign (fun _ => 0) reqPlain).2 (by decide)⟩

/-! ## Claim C10 -/

/-- Claim C10: the body buffering of `Signer.Sign` and `Verifier.Verify`
(the latter once the inner verification succeeded) leaves a nil body nil,
leaves a zero-byte body as the original, now closed, stream without
installing a replacement reader, and replaces a body that yielded at least
one byte with a fresh re-readable reader over those bytes. -/
theorem body_buffering_frame (cd : List Nat → String)
    (inner : Request → Except String (String × String))
    (vd : List Nat → String → Bool)
    (iv : Request → String × Option String) (r : Request) :
    (r.body = Body.nil → (signStep cd inner r).1.body = Body.nil) ∧
    (r.body = Body.orig [] false false →
      (signStep cd inner r).1.body = Body.orig [] true false) ∧
    (∀ bs, bs ≠ [] → r.body = Body.orig bs false false →
      (signStep cd inner r).1.body = Body.buffered bs) ∧
    ((iv r).2 = none → r.body = Body.nil →
      (verifyStep vd iv r).1.body = Body.nil) ∧
    ((iv r).2 = none → r.body = Body.orig [] false false →
      (verifyStep vd iv r).1.body = Body.orig [] true false) ∧
    (∀ bs, bs ≠ [] → (iv r).2 = none → r.body = Body.orig bs false false →
      (verifyStep vd iv r).1.body = Body.buffered bs) := by
  refine ⟨?_, ?_, ?_, ?_, ?_, ?_⟩
  · intro h
    rw [signStep_body, h]
    rfl
  · intro h
    rw [signStep_body, h]
    rfl
  · intro bs hbs h
    rw [signStep_body, h]
    cases bs with
    | nil => exact absurd rfl hbs
    | cons a t => rfl
  · intro hiv h
    rw [verifyStep_body vd iv r hiv, h]
    rfl
  · intro hiv h
    rw [verifyStep_body vd iv r hiv, h]
    rfl
  · intro bs hbs hiv h
    rw [verifyStep_body vd iv r hiv, h]
    cases bs with
    | nil => exact absurd rfl hbs
    | cons a t => rfl

/-- Claim C10, witness: concrete zero-byte and one-byte bodies through both
the signing and the verifying path. -/
theorem body_buffering_frame_witness :
    (signStep cdProbe okSign reqBody0).1.body = Body.orig [] true false ∧
      (signStep cdProbe okSign reqBody1).1.body = Body.buffered [1] ∧
      (verifyStep vdTrue okVerify reqBody1).1.body = Body.buffered [1] :=
  ⟨(body_buffering_frame cdProbe okSign vdTrue okVerify reqBody0).2.1 rfl,
    (body_buffering_frame cdProbe okSign vdTrue okVerify reqBody1).2.2.1 [1]
      (by decide) rfl,
    (body_buffering_frame cdProbe okSign vdTrue okVerify reqBody1).2.2.2.2.2 [1]
      (by decide) rfl rfl⟩

/-! ## Claim C3 -/

/-- Claim C3: whatever failure `Verifier.Verify` reports, the middleware
built by `NewVerifyMiddleware` produces the one fixed response — status 400,
Content-Type text/plain, body `invalid required signature` — without
invoking the wrapped handler; on success it invokes the wrapped handler. -/
theorem middleware_uniform_response (vd : List Nat → String → Bool)
    (iv : Request → String × Option String) (r : Request) :
    ((∃ e, (verifyStep vd iv r).2.2 = some e) →
      newVerifyMiddleware vd iv r =
        MwResult.rejected ⟨400, "text/plain", "invalid required signature"⟩) ∧
    ((verifyStep vd iv r).2.2 = none →
      newVerifyMiddleware vd iv r = MwResult.handled (verifyStep vd iv r).1) := by
  rcases h : verifyStep vd iv r with ⟨r1, k, oe⟩
  cases oe with
  | some e0 =>
    constructor
    · intro _
      simp [newVerifyMiddleware, h]
    · intro hn
      simp at hn
  | none =>
    constructor
    · intro he
      obtain ⟨e, he⟩ := he
      simp at he
    · intro _
      simp [newVerifyMiddleware, h]

/-- Claim C3, witness: a failing inner verifier yields the fixed rejection,
a succeeding one forwards to the handler. -/
theorem middleware_uniform_response_witness :
    newVerifyMiddleware vdTrue failVerify reqPlain =
        MwResult.rejected ⟨400, "text/plain", "invalid required signature"⟩ ∧
      newVerifyMiddleware vdTrue okVerify reqPlain =
        MwResult.handled (verifyStep vdTrue okVerify reqPlain).1 :=
  ⟨(middleware_uniform_response vdTrue failVerify reqPlain).1
      ⟨"missing signature", by decide⟩,
    (middleware_uniform_response vdTrue okVerify reqPlain).2 (by decide)⟩

/-! ## Claim C4 -/

/-- Claim C4: when the inner signature verification succeeds and the request
carries no Content-Digest header, `Verifier.Verify` returns the
authenticated key id with no error, for every digest check function and
whatever the body bytes are — the digest check is performed only when the
header is present. -/
theorem verify_skips_digest_when_absent (vd : List Nat → String → Bool)
    (iv : Request → String × Option String) (r : Request) (k : String)
    (hiv : iv r = (k, none))
    (hnd : getHeader r.headers "Content-Digest" = "")
    (hro : readOk r.body = true) :
    verifyStep vd iv r = ({ r with body := (bufferBody r.body).1 }, k, none) := by
  rcases hb : bufferBody r.body with ⟨b1, bs, re⟩
  cases re with
  | some e0 =>
    rw [readOk, hb] at hro
    simp at hro
  | none =>
    rw [verifyStep_ok vd iv r k b1 bs hiv hb]
    rw [if_neg (fun hc => hc.1 hnd)]

/-- Claim C4, witness: a concrete digest-less request with a digest check
that never matches still verifies with the authenticated key id. -/
theorem verify_skips_digest_when_absent_witness :
    verifyStep vdFalse okVerify reqPlain =
      ({ reqPlain with body := (bufferBody reqPlain.body).1 }, "test-key", none) :=
  verify_skips_digest_when_absent vdFalse okVerify reqPlain "test-key" rfl
    (by decide) (by decide)

/-! ## Claim C9 -/

/-- Claim C9: when only the digest check fails — inner verification
succeeded with a non-empty key id, a Content-Digest header is present, and
the body digest does not match — `Verifier.Verify` returns that non-empty
authenticated key id alongside the digest mismatch error. -/
theorem verify_digest_mismatch_keeps_keyid (vd : List Nat → String → Bool)
    (iv : Request → String × Option String) (r : Request) (k : String)
    (hiv : iv r = (k, none)) (hro : readOk r.body = true)
    (hd : getHeader r.headers "Content-Digest" ≠ "")
    (hvd : vd (bufferBody r.body).2.1 (getHeader r.headers "Content-Digest") = false)
    (hk : k ≠ "") :
    (verifyStep vd iv r).2.1 = k ∧
      (verifyStep vd iv r).2.2 = some "digest mismatch" ∧
      (verifyStep vd iv r).2.1 ≠ "" := by
  rcases hb : bufferBody r.body with ⟨b1, bs, re⟩
  cases re with
  | some e0 =>
    rw [readOk, hb] at hro
    simp at hro
  | none =>
    rw [hb] at hvd
    have hvd1 : vd bs (getHeader r.headers "Content-Digest") = false := hvd
    rw [verifyStep_ok vd iv r k b1 bs hiv hb, if_pos ⟨hd, hvd1⟩]
    exact ⟨rfl, rfl, hk⟩

/-- Claim C9, witness: a concrete request with a mismatching digest header
still yields the authenticated key id `test-key` with the mismatch error. -/
theorem verify_digest_mismatch_keeps_keyid_witness :
    (verifyStep vdFalse okVerify reqWithDigest).2.1 = "test-key" ∧
      (verifyStep vdFalse okVerify reqWithDigest).2.2 = some "digest mismatch" ∧
      (verifyStep vdFalse okVerify reqWithDigest).2.1 ≠ "" :=
  verify_digest_mismatch_keeps_keyid vdFalse okVerify reqWithDigest "test-key" rfl
    (by decide) (by decide) (by decide) (by decide)

end Httpsig
